import Mathlib

/-!
# Shallow embedding of the meme-generator service (src/index.ts, src/app.ts)

The two TypeScript sources are near-identical; every function embedded here
exists in both files (line references name src/index.ts).  Network effects are
made explicit: each client function takes the upstream HTTP response as an
argument and returns `Except String α`, where `.error msg` models a thrown
`Error` with message `msg`.

JavaScript runtime values that flow through the untyped parts of the code
(parsed JSON, tool arguments) are modelled by `JsValue`.  JSON numbers are
modelled as integers (the model's `JSON.parse` rejects fractional and
exponent forms; no claim involves a non-integer number).  String escapes in
the modelled `JSON.parse` cover the simple one-character escapes; `\u` forms
are rejected.
-/

/-- A JavaScript runtime value, as produced by `JSON.parse` or passed as a
tool argument.  `undefined` is JavaScript `undefined` (never produced by
`JSON.parse`, but produced by property access on objects lacking the key). -/
inductive JsValue where
  | undefined : JsValue
  | nul : JsValue
  | bool (b : Bool) : JsValue
  | num (n : Int) : JsValue
  | str (s : String) : JsValue
  | arr (elems : List JsValue) : JsValue
  | obj (fields : List (String × JsValue)) : JsValue

/-- JavaScript truthiness of a value (`Boolean(v)`). -/
def truthy : JsValue → Bool
  | .undefined => false
  | .nul => false
  | .bool b => b
  | .num n => n != 0
  | .str s => s != ""
  | .arr _ => true
  | .obj _ => true

/-- JavaScript property access `v[key]`.  On `null` and `undefined` this
throws a `TypeError`, modelled as `.error ()`.  On objects the last binding
of the key wins (as for duplicate keys in `JSON.parse`); a missing key gives
`undefined`.  Other values have none of the properties this program reads. -/
def getProp (v : JsValue) (key : String) : Except Unit JsValue :=
  match v with
  | .undefined => .error ()
  | .nul => .error ()
  | .obj fields =>
      match fields.reverse.find? (fun p => p.1 == key) with
      | some p => .ok p.2
      | none => .ok .undefined
  | _ => .ok .undefined

/-- JavaScript `Array.prototype.join(sep)` over already-stringified parts,
and also the model of `missing.join(", ")` in `validateEnvVars`. -/
def joinWith (sep : String) : List String → String
  | [] => ""
  | [a] => a
  | a :: rest => a ++ sep ++ joinWith sep rest

mutual

/-- JavaScript `String(v)`.  Array elements that are `null` or `undefined`
stringify to the empty string inside `join(",")`. -/
def jsToString : JsValue → String
  | .undefined => "undefined"
  | .nul => "null"
  | .bool b => if b then "true" else "false"
  | .num n => toString n
  | .str s => s
  | .arr elems => joinWith "," (jsElemsToString elems)
  | .obj _ => "[object Object]"

/-- Stringify array elements for `Array.prototype.join`. -/
def jsElemsToString : List JsValue → List String
  | [] => []
  | .nul :: rest => "" :: jsElemsToString rest
  | .undefined :: rest => "" :: jsElemsToString rest
  | v :: rest => jsToString v :: jsElemsToString rest

end

example : jsToString (.arr [.num 1, .str "a", .nul]) = "1,a," := rfl

/-- Greedy run of decimal digits at the head of a character list. -/
def takeDigits (cs : List Char) : List Char × List Char :=
  cs.span Char.isDigit

/-- Value of a (non-empty) list of decimal digits. -/
def digitsToNat (ds : List Char) : Nat :=
  ds.foldl (fun acc c => acc * 10 + (c.toNat - 48)) 0

/-- The characters JavaScript `String.prototype.trim` strips: the ECMA-262
WhiteSpace set (TAB, VT, FF, SPACE, NBSP, ZWNBSP and the Unicode
Space_Separator category) together with the LineTerminator set (LF, CR,
LINE SEPARATOR, PARAGRAPH SEPARATOR). -/
def jsWhitespace (c : Char) : Bool :=
  (9 <= c.toNat && c.toNat <= 13)
  || c == ' ' || c == '\u00A0' || c == '\u1680'
  || (8192 <= c.toNat && c.toNat <= 8202)
  || c == '\u2028' || c == '\u2029' || c == '\u202F' || c == '\u205F'
  || c == '\u3000' || c == '\uFEFF'

/-- Model of JavaScript `String.prototype.trim` on the character list,
stripping the full ECMA-262 whitespace class from both ends. -/
def jsTrimList (cs : List Char) : List Char :=
  ((cs.dropWhile jsWhitespace).reverse.dropWhile jsWhitespace).reverse

/-- Model of JavaScript `String.prototype.trim`. -/
def jsTrim (s : String) : String := ⟨jsTrimList s.data⟩

/-- Model of JavaScript `Number(string)`: whitespace-trimmed empty string is
0, an optionally signed digit string is its value, anything else is NaN
(`none`).  Fractional, hex and Infinity forms are outside the model. -/
def strToNumber (s : String) : Option Int :=
  match jsTrimList s.data with
  | [] => some 0
  | '-' :: rest =>
      let p := takeDigits rest
      if p.1.isEmpty || !p.2.isEmpty then none else some (-(digitsToNat p.1 : Int))
  | '+' :: rest =>
      let p := takeDigits rest
      if p.1.isEmpty || !p.2.isEmpty then none else some (digitsToNat p.1 : Int)
  | cs =>
      let p := takeDigits cs
      if p.1.isEmpty || !p.2.isEmpty then none else some (digitsToNat p.1 : Int)

/-- Model of JavaScript `Number(v)` composed with the `isNaN` test of
`parseMemeCaption`: `none` is NaN.  Arrays coerce through their string
form, objects to NaN. -/
def toNumber : JsValue → Option Int
  | .undefined => none
  | .nul => some 0
  | .bool b => some (if b then 1 else 0)
  | .num n => some n
  | .str s => strToNumber s
  | .arr elems => strToNumber (jsToString (.arr elems))
  | .obj _ => none

/-! ## A total model of `JSON.parse`

Fuel-indexed recursive-descent parser over the character list.  The fuel
argument makes termination structural; `jsonParse` supplies enough fuel for
any input.  Restrictions of the model (declared above): integer numbers
only, simple escapes only. -/

/-- JSON insignificant whitespace. -/
def isJsonWs (c : Char) : Bool :=
  match c with
  | ' ' => true
  | '\t' => true
  | '\n' => true
  | '\r' => true
  | _ => false

/-- Drop leading JSON whitespace. -/
def skipWs (cs : List Char) : List Char :=
  cs.dropWhile isJsonWs

/-- When `lit` is a prefix of `input`, the remainder of `input` after it. -/
def afterLit (lit input : List Char) : Option (List Char) :=
  if lit.isPrefixOf input then some (input.drop lit.length) else none

/-- Translate a one-character JSON string escape.  The quote, backslash and
slash stand for themselves; `n`, `t` and `r` name control characters. -/
def escChar (e : Char) : Option Char :=
  if e == 'n' then some '\n'
  else if e == 't' then some '\t'
  else if e == 'r' then some '\r'
  else if e == '"' || e == '\\' || e == '/' then some e
  else none

/-- Parse the body of a JSON string literal (after the opening quote),
returning the decoded characters and the remainder after the closing
quote. -/
def parseStringChars : List Char → Option (List Char × List Char)
  | [] => none
  | '"' :: rest => some ([], rest)
  | '\\' :: rest =>
      match rest with
      | [] => none
      | e :: rest2 =>
          match escChar e with
          | none => none
          | some d => (parseStringChars rest2).map (fun p => (d :: p.1, p.2))
  | c :: rest => (parseStringChars rest).map (fun p => (c :: p.1, p.2))

/-- Parse a JSON integer literal (optional minus sign, no leading zeros). -/
def parseNumber (cs : List Char) : Option (Int × List Char) :=
  match cs with
  | '-' :: rest =>
      let p := takeDigits rest
      if p.1.isEmpty || (p.1.length > 1 && p.1.headD '0' == '0') then none
      else some (-(digitsToNat p.1 : Int), p.2)
  | _ =>
      let p := takeDigits cs
      if p.1.isEmpty || (p.1.length > 1 && p.1.headD '0' == '0') then none
      else some ((digitsToNat p.1 : Int), p.2)

mutual

/-- Parse one JSON value; returns the value and the unconsumed remainder. -/
def parseVal : Nat → List Char → Option (JsValue × List Char)
  | 0, _ => none
  | fuel + 1, input =>
      let cs := skipWs input
      if let some r := afterLit "null".data cs then some (.nul, r)
      else if let some r := afterLit "true".data cs then some (.bool true, r)
      else if let some r := afterLit "false".data cs then some (.bool false, r)
      else
        match cs with
        | '"' :: more => (parseStringChars more).map (fun p => (.str ⟨p.1⟩, p.2))
        | '[' :: more =>
            if let ']' :: closed := skipWs more then some (.arr [], closed)
            else (parseElems fuel (skipWs more)).map (fun p => (.arr p.1, p.2))
        | '{' :: more =>
            if let '}' :: closed := skipWs more then some (.obj [], closed)
            else (parseMembers fuel (skipWs more)).map (fun p => (.obj p.1, p.2))
        | _ => (parseNumber cs).map (fun p => (.num p.1, p.2))

/-- Parse the comma-separated elements of a non-empty JSON array, including
the closing bracket. -/
def parseElems : Nat → List Char → Option (List JsValue × List Char)
  | 0, _ => none
  | fuel + 1, input => do
      let (v, rest) ← parseVal fuel input
      match skipWs rest with
      | ',' :: more => do
          let (vs, fin) ← parseElems fuel more
          pure (v :: vs, fin)
      | ']' :: fin => pure ([v], fin)
      | _ => none

/-- Parse the comma-separated members of a non-empty JSON object, including
the closing brace. -/
def parseMembers : Nat → List Char → Option (List (String × JsValue) × List Char)
  | 0, _ => none
  | fuel + 1, input =>
      match skipWs input with
      | '"' :: afterQuote => do
          let (keyChars, afterKey) ← parseStringChars afterQuote
          match skipWs afterKey with
          | ':' :: afterColon => do
              let (v, afterVal) ← parseVal fuel afterColon
              match skipWs afterVal with
              | ',' :: more => do
                  let (ms, fin) ← parseMembers fuel more
                  pure ((⟨keyChars⟩, v) :: ms, fin)
              | '}' :: fin => pure ([(⟨keyChars⟩, v)], fin)
              | _ => none
          | _ => none
      | _ => none

end

/-- Model of `JSON.parse`: `none` models a thrown `SyntaxError`. -/
def jsonParse (s : String) : Option JsValue :=
  match parseVal (4 * (s.data.length + 1)) s.data with
  | some (v, rest) => if (skipWs rest).isEmpty then some v else none
  | none => none

example : jsonParse "null" = some .nul := rfl
example : jsonParse "  \x7b \"a\": 1, \"b\": [true, \"x\"] \x7d " =
    some (.obj [("a", .num 1), ("b", .arr [.bool true, .str "x"])]) := rfl
example : jsonParse "not json" = none := rfl
example : jsonParse "-42" = some (.num (-42)) := rfl
example : jsonParse "\x7b\"image\": 101, \"topText\": \"A\", \"bottomText\": \"B\"\x7d" =
    some (.obj [("image", .num 101), ("topText", .str "A"), ("bottomText", .str "B")]) := rfl

/-! ## Caption Parser (`parseMemeCaption`, src/index.ts:589-618) -/

/-- Remove every occurrence of a (non-empty) pattern from a character list,
scanning left to right; models `String.prototype.replace(/pat/g, "")`.
Fuel equal to the list length makes the recursion structural. -/
def stripAllAux : Nat → List Char → List Char → List Char
  | 0, _, s => s
  | _ + 1, _, [] => []
  | fuel + 1, pat, c :: rest =>
      if !pat.isEmpty && pat.isPrefixOf (c :: rest) then
        stripAllAux fuel pat ((c :: rest).drop pat.length)
      else c :: stripAllAux fuel pat rest

/-- Remove every occurrence of `pat` from `s`
(`s.replace(/pat/g, "")` for a literal pattern). -/
def stripAll (pat s : String) : String :=
  ⟨stripAllAux s.data.length pat.data s.data⟩

/-- A parsed meme caption (interface `MemeCaption`, src/index.ts:22-26). -/
structure MemeCaption where
  image : Int
  topText : String
  bottomText : String
deriving DecidableEq

/-- The fence-stripping and trimming pipeline of `parseMemeCaption`
(src/index.ts:591-594): remove every "```json", then every "```",
then trim surrounding whitespace. -/
def cleanCaption (caption : String) : String :=
  jsTrim (stripAll "```" (stripAll "```json" caption))

/-- `parseMemeCaption` (src/index.ts:589-618).  The whole body sits inside
`try/catch { return null }`: a `JSON.parse` failure or the `TypeError` from
reading a property of a parsed `null` both yield `none`.  Falsy `image`,
`topText` or `bottomText` (absent, empty string, zero, `null`, `false`)
yields `none`; an `image` that coerces to NaN yields `none`. -/
def parseMemeCaption (caption : String) : Option MemeCaption :=
  match jsonParse (cleanCaption caption) with
  | none => none
  | some json =>
      match getProp json "image", getProp json "topText", getProp json "bottomText" with
      | .ok img, .ok top, .ok bot =>
          if !truthy img || !truthy top || !truthy bot then none
          else
            match toNumber img with
            | none => none
            | some imageId =>
                some { image := imageId, topText := jsToString top, bottomText := jsToString bot }
      | _, _, _ => none

example :
    parseMemeCaption "\x7b\"image\": 101, \"topText\": \"A\", \"bottomText\": \"B\"\x7d" =
      some { image := 101, topText := "A", bottomText := "B" } := rfl
example :
    parseMemeCaption "```json\n\x7b\"image\": 101, \"topText\": \"A\", \"bottomText\": \"B\"\x7d\n```" =
      some { image := 101, topText := "A", bottomText := "B" } := rfl
example : parseMemeCaption "sorry, here is some prose" = none := rfl
example : parseMemeCaption "\x7b\"topText\": \"A\", \"bottomText\": \"B\"\x7d" = none := rfl
example : parseMemeCaption "null" = none := rfl
example : parseMemeCaption "\x7b\"image\": \"abc\", \"topText\": \"A\", \"bottomText\": \"B\"\x7d" = none := rfl

/-! ## News Client (`getIndianNewsByTopic`, src/index.ts:402-444) -/

/-- An HTTP response as seen through `fetch`: the `ok`/`status`/`statusText`
of the `Response`, and the already-parsed JSON body (`await response.json()`). -/
structure FetchResponse where
  ok : Bool
  status : Nat
  statusText : String
  body : JsValue

/-- The query parameters built by `getIndianNewsByTopic`
(src/index.ts:408-417): the four fixed entries, and `q` appended only when
`topic.trim()` is truthy (non-empty). -/
def newsRequestParams (topic apiKey : String) : List (String × String) :=
  let params := [("apikey", apiKey), ("country", "in"), ("language", "en"), ("size", "10")]
  if jsTrim topic != "" then params ++ [("q", topic)] else params

/-- The response handling of `getIndianNewsByTopic` (src/index.ts:419-443).
A non-ok status throws, which the `catch` rewraps with the
`Failed to fetch news:` prefix.  A body whose `results` field is missing or
not an array yields `[]`.  Reading `.results` off a `null` body throws a
`TypeError`, also rewrapped by the `catch`.  The `results` array is returned
as-is (elements are raw JSON values, not validated `NewsArticle`s). -/
def newsResponseArticles (r : FetchResponse) : Except String (List JsValue) :=
  if !r.ok then
    .error ("Failed to fetch news: NewsData API error: " ++
      toString r.status ++ " " ++ r.statusText)
  else
    match getProp r.body "results" with
    | .error _ => .error "Failed to fetch news: TypeError"
    | .ok v =>
        if !truthy v then .ok []
        else
          match v with
          | .arr articles => .ok articles
          | _ => .ok []

/-! ## Template Catalog Client (`fetchImgflipTemplates`, src/index.ts:558-587) -/

/-- A template entry as returned by the upstream catalog (`data.memes[i]`),
carrying more fields than the program keeps. -/
structure ImgflipTemplateRaw where
  id : Int
  name : String
  url : String
  width : Int
  height : Int
  boxCount : Int
deriving DecidableEq

/-- A template entry as returned to the caller
(interface `ImgflipTemplate`, src/index.ts:17-20). -/
structure ImgflipTemplate where
  id : Int
  name : String
deriving DecidableEq

/-- The upstream catalog response: HTTP status fields and the
`{success, data: {memes}}` payload. -/
structure GetMemesResponse where
  ok : Bool
  status : Nat
  statusText : String
  success : Bool
  memes : List ImgflipTemplateRaw

/-- `fetchImgflipTemplates` (src/index.ts:558-587): non-ok status or
`success: false` throw (rewrapped by the `catch` with the
`Failed to fetch templates:` prefix); otherwise `slice(0, 100)` then a map
down to `{id, name}`. -/
def fetchImgflipTemplates (r : GetMemesResponse) : Except String (List ImgflipTemplate) :=
  if !r.ok then
    .error ("Failed to fetch templates: Imgflip templates API error: " ++
      toString r.status ++ " " ++ r.statusText)
  else if !r.success then
    .error "Failed to fetch templates: Imgflip API returned success: false"
  else
    .ok ((r.memes.take 100).map (fun m => { id := m.id, name := m.name }))

/-! ## Config Validator (`validateEnvVars`, src/index.ts:211-225) -/

/-- The four required environment variable names, in source order. -/
def requiredEnvKeys : List String :=
  ["NEWSDATA_API_KEY", "GEMINI_API_KEY", "IMGFLIP_USERNAME", "IMGFLIP_PASSWORD"]

/-- `!process.env[key]`: the entry is missing (`undefined`) or the empty
string (both falsy). -/
def envFalsy (v : Option String) : Bool :=
  match v with
  | none => true
  | some s => s == ""

/-- `validateEnvVars` (src/index.ts:211-225).  The process environment is the
function `env` from variable names to their optional values.  Collects every
required key whose value is falsy and throws a single error naming them all,
joined by `", "`. -/
def validateEnvVars (env : String → Option String) : Except String Unit :=
  let missing := requiredEnvKeys.filter (fun key => envFalsy (env key))
  if missing.length > 0 then
    .error ("Missing required environment variables: " ++ joinWith ", " missing)
  else
    .ok ()

/-! ## Tool handlers with required-parameter checks
(`handleGenerateCaption` src/index.ts:271-302,
`handleCreateMeme` src/index.ts:304-331) -/

/-- `handleCreateMeme` (src/index.ts:304-331).  Arguments arrive as untyped
JSON values; the guard `!templateId || !topText || !bottomText` throws for
any falsy argument.  `renderResult` is the outcome of the
`generateMeme` call (the rendered URL, `null`, or a thrown error). -/
def handleCreateMeme (env : String → Option String)
    (templateId topText bottomText : JsValue)
    (renderResult : Except String (Option String)) : Except String (Option String) :=
  match validateEnvVars env with
  | .error e => .error e
  | .ok _ =>
      if !truthy templateId || !truthy topText || !truthy bottomText then
        .error "Missing required parameters: templateId, topText, bottomText"
      else renderResult

/-- `handleGenerateCaption` (src/index.ts:271-302).  The guard
`!title || !description || !availableTemplates` throws for any falsy
argument.  `captionResult` is the outcome of the `generateCaption` call. -/
def handleGenerateCaption (env : String → Option String)
    (title description availableTemplates : JsValue)
    (captionResult : Except String (Option MemeCaption)) :
    Except String (Option MemeCaption) :=
  match validateEnvVars env with
  | .error e => .error e
  | .ok _ =>
      if !truthy title || !truthy description || !truthy availableTemplates then
        .error "Missing required parameters: title, description, availableTemplates"
      else captionResult

/-! ## Workflow Orchestrator (`handleGenerateNewsMeme`, src/index.ts:333-399) -/

/-- JavaScript array indexing `news[i]` for an integer index: negative or
out-of-bounds access yields `undefined` (here `none`), never a fault. -/
def listGet? {α : Type} (l : List α) (i : Int) : Option α :=
  if i < 0 then none else l.get? i.toNat

/-- The outcomes of the four awaited inner steps of one
`handleGenerateNewsMeme` invocation, each either a value or a thrown
error message. -/
structure WorkflowEnv where
  newsResult : Except String (List JsValue)
  templatesResult : Except String (List ImgflipTemplate)
  captionResult : Except String (Option MemeCaption)
  renderResult : Except String (Option String)

/-- The success payload of `handleGenerateNewsMeme` (src/index.ts:372-391):
the selected article's raw `title` and `description`, the parsed caption,
and the rendered URL. -/
structure NewsMemeSuccess where
  articleTitle : JsValue
  articleDescription : JsValue
  caption : MemeCaption
  memeUrl : Option String

/-- The wrapping applied by the orchestrator's `catch` block
(src/index.ts:392-398). -/
def wrapNewsMeme (msg : String) : String :=
  "Failed to generate news meme: " ++ msg

/-- `handleGenerateNewsMeme` (src/index.ts:333-399).  `validateEnvVars` runs
before the `try`, so its error is not wrapped.  `articleIndex.getD 0` models
`args?.articleIndex || 0` (for an integer index, `i || 0` is `i`).  Inside
the `try`: an empty article list, a falsy selected article (out-of-range
index gives `undefined`), or a falsy `title`/`description` throw the two
workflow messages; each inner step's thrown error and the two workflow
throws are caught and rewrapped with the `Failed to generate news meme:`
prefix. -/
def handleGenerateNewsMeme (env : String → Option String) (w : WorkflowEnv)
    (articleIndex : Option Int) : Except String NewsMemeSuccess :=
  match validateEnvVars env with
  | .error e => .error e
  | .ok _ =>
      let idx := articleIndex.getD 0
      match w.newsResult with
      | .error e => .error (wrapNewsMeme e)
      | .ok news =>
          if news.length = 0 then .error (wrapNewsMeme "No news articles found")
          else
            match listGet? news idx with
            | none => .error (wrapNewsMeme "Selected article missing title or description")
            | some article =>
                if !truthy article then
                  .error (wrapNewsMeme "Selected article missing title or description")
                else
                  match getProp article "title", getProp article "description" with
                  | .ok titleV, .ok descV =>
                      if !truthy titleV || !truthy descV then
                        .error (wrapNewsMeme "Selected article missing title or description")
                      else
                        match w.templatesResult with
                        | .error e => .error (wrapNewsMeme e)
                        | .ok _templates =>
                            match w.captionResult with
                            | .error e => .error (wrapNewsMeme e)
                            | .ok none =>
                                .error (wrapNewsMeme "Failed to generate meme caption")
                            | .ok (some caption) =>
                                match w.renderResult with
                                | .error e => .error (wrapNewsMeme e)
                                | .ok url =>
                                    .ok { articleTitle := titleV,
                                          articleDescription := descV,
                                          caption := caption, memeUrl := url }
                  | _, _ => .error (wrapNewsMeme "TypeError")

/-- "`needle` occurs as a substring of `hay`". -/
def containsStr (needle hay : String) : Prop :=
  ∃ p q, hay = p ++ needle ++ q

/-! ## Helper lemmas -/

/-- Any member of a joined list occurs as a substring of the join. -/
theorem joinWith_substring (sep k : String) (l : List String) (hmem : k ∈ l) :
    ∃ p q, joinWith sep l = p ++ k ++ q := by
  induction l with
  | nil => cases hmem
  | cons a t ih =>
      rcases List.mem_cons.mp hmem with h1 | h2
      · subst h1
        cases t with
        | nil => exact ⟨"", "", by simp [joinWith]⟩
        | cons b t' =>
            exact ⟨"", sep ++ joinWith sep (b :: t'),
              by simp [joinWith, String.append_assoc]⟩
      · obtain ⟨p, q, hp⟩ := ih h2
        cases t with
        | nil => cases h2
        | cons b t' =>
            refine ⟨a ++ sep ++ p, q, ?_⟩
            simp only [joinWith, hp, String.append_assoc]

/-- The modelled `trim` returns the empty list exactly when every input
character belongs to the JS whitespace class. -/
theorem jsTrimList_eq_nil_iff (cs : List Char) :
    jsTrimList cs = [] ↔ ∀ c ∈ cs, jsWhitespace c := by
  unfold jsTrimList
  rw [List.reverse_eq_nil_iff, List.dropWhile_eq_nil_iff]
  constructor
  · intro h c hc
    have hsplit := List.takeWhile_append_dropWhile (p := jsWhitespace) (l := cs)
    rw [← hsplit] at hc
    rcases List.mem_append.mp hc with h1 | h2
    · exact List.mem_takeWhile_imp h1
    · exact h c (List.mem_reverse.mpr h2)
  · intro h x hx
    have hx' : x ∈ cs.dropWhile jsWhitespace := List.mem_reverse.mp hx
    have hsub : List.Sublist (cs.dropWhile jsWhitespace) cs :=
      List.dropWhile_sublist _
    exact h x (hsub.mem hx')

/-- The modelled `trim` returns the empty string exactly when the input is
all JS whitespace (the JS condition `topic.trim()` being falsy). -/
theorem jsTrim_eq_empty_iff (s : String) :
    jsTrim s = "" ↔ ∀ c ∈ s.data, jsWhitespace c := by
  unfold jsTrim
  rw [show ("" : String) = ⟨[]⟩ from rfl]
  constructor
  · intro h
    exact (jsTrimList_eq_nil_iff s.data).mp (by injection h)
  · intro h
    rw [(jsTrimList_eq_nil_iff s.data).mpr h]

/-! ## C5 — fence stripping in the Caption Parser -/

/-- C5: raw text consisting of the JSON object
`{"image": 101, "topText": "A", "bottomText": "B"}`, bare or wrapped in
Markdown code fences, has the fence markers and surrounding whitespace
stripped and parses to the caption (101, "A", "B"). -/
theorem parseMemeCaption_fenced_json :
    cleanCaption "```json\n\x7b\"image\": 101, \"topText\": \"A\", \"bottomText\": \"B\"\x7d\n```" =
      "\x7b\"image\": 101, \"topText\": \"A\", \"bottomText\": \"B\"\x7d"
  ∧ parseMemeCaption "```json\n\x7b\"image\": 101, \"topText\": \"A\", \"bottomText\": \"B\"\x7d\n```" =
      some { image := 101, topText := "A", bottomText := "B" }
  ∧ parseMemeCaption "\x7b\"image\": 101, \"topText\": \"A\", \"bottomText\": \"B\"\x7d" =
      some { image := 101, topText := "A", bottomText := "B" } :=
  ⟨rfl, rfl, rfl⟩

/-! ## C1 — the "at most 10 articles" cap -/

/-- An upstream `results` array with eleven entries. -/
def elevenResults : List JsValue :=
  List.replicate 11 (.obj [("title", .str "t"), ("description", .str "d")])

/-- A successful news response carrying eleven results. -/
def elevenResp : FetchResponse :=
  { ok := true, status := 200, statusText := "OK",
    body := .obj [("results", .arr elevenResults)] }

/-- C1 counterexample: the News Client does not truncate the upstream
`results` array; a successful response with eleven articles is returned
with all eleven, so the claimed "at most 10" bound over every upstream
response is false. -/
theorem newsClient_no_cap_counterexample :
    newsResponseArticles elevenResp = .ok elevenResults ∧ 10 < elevenResults.length :=
  ⟨rfl, by decide⟩

/-- C1 amended: the News Client requests at most 10 articles by always
sending `size=10` as a query parameter, but performs no truncation of its
own: whenever the successful response's `results` field is an array, that
array is returned unchanged.  The ≤ 10 bound therefore holds only if the
upstream service honors the `size` parameter. -/
theorem newsClient_size_param_and_passthrough (topic apiKey : String)
    (r : FetchResponse) (xs : List JsValue)
    (hok : r.ok = true) (hres : getProp r.body "results" = .ok (.arr xs)) :
    ("size", "10") ∈ newsRequestParams topic apiKey ∧ newsResponseArticles r = .ok xs := by
  constructor
  · unfold newsRequestParams
    by_cases h : jsTrim topic != ""
    · simp [h]
    · simp [h]
  · unfold newsResponseArticles
    rw [hok]
    simp [hres, truthy]

/-- C1 amended, witnessed at the eleven-article response. -/
theorem newsClient_size_param_and_passthrough_witness :
    ("size", "10") ∈ newsRequestParams "cricket" "key" ∧
      newsResponseArticles elevenResp = .ok elevenResults :=
  newsClient_size_param_and_passthrough "cricket" "key" elevenResp elevenResults rfl rfl

/-! ## C7 — malformed upstream payload handling -/

/-- A successful-status news response whose JSON body is `null`. -/
def nullBodyResp : FetchResponse :=
  { ok := true, status := 200, statusText := "OK", body := .nul }

/-- C7 counterexample: a successful-status response whose body is the JSON
value `null` lacks a `results` field, yet the client raises (the property
read on `null` throws a `TypeError`, which the `catch` rewraps) instead of
returning the empty list. -/
theorem newsClient_null_body_counterexample :
    newsResponseArticles nullBodyResp = .error "Failed to fetch news: TypeError" :=
  rfl

/-- C7 amended: for every successful-status response whose (non-null,
non-undefined) body lacks a `results` field or whose `results` field is not
an array, the client returns the empty list without error, and a genuinely
empty `results` array yields the same empty list — so those callers cannot
distinguish the two.  A `null` body instead raises a wrapped `TypeError`. -/
theorem newsClient_malformed_results_empty (r : FetchResponse) (hok : r.ok = true) :
    (∀ v, getProp r.body "results" = .ok v → (∀ xs, v ≠ .arr xs) →
      newsResponseArticles r = .ok [])
  ∧ (getProp r.body "results" = .ok (.arr []) → newsResponseArticles r = .ok []) := by
  constructor
  · intro v hres hnotarr
    unfold newsResponseArticles
    rw [hok]
    simp only [Bool.not_true, Bool.false_eq_true, if_false, hres]
    cases v with
    | arr xs => exact absurd rfl (hnotarr xs)
    | _ => simp [truthy]
  · intro hres
    unfold newsResponseArticles
    rw [hok]
    simp [hres, truthy]

/-- A successful-status news response whose body is an object without a
`results` field. -/
def noResultsResp : FetchResponse :=
  { ok := true, status := 200, statusText := "OK",
    body := .obj [("status", .str "ok")] }

/-- C7 amended, witnessed: a body lacking `results` (the read yields
`undefined`) gives the empty list. -/
theorem newsClient_malformed_results_empty_witness :
    newsResponseArticles noResultsResp = .ok [] :=
  (newsClient_malformed_results_empty noResultsResp rfl).1 .undefined rfl
    (fun _ h => JsValue.noConfusion h)

/-! ## C8 — Template Catalog Client bound and order -/

/-- C8: for every successful template-catalog response, the client returns
exactly the first `min 100 n` entries in upstream order, each reduced to its
`id` and `name`; in particular never more than 100. -/
theorem fetchImgflipTemplates_bounded_ordered (r : GetMemesResponse)
    (hok : r.ok = true) (hs : r.success = true) :
    fetchImgflipTemplates r =
      .ok ((r.memes.take 100).map
        (fun m => ({ id := m.id, name := m.name } : ImgflipTemplate)))
  ∧ ∀ ts, fetchImgflipTemplates r = .ok ts →
      ts.length = min 100 r.memes.length ∧ ts.length ≤ 100 ∧
      ∀ i (hi : i < ts.length) (hm : i < r.memes.length),
        ts.get ⟨i, hi⟩ =
          { id := (r.memes.get ⟨i, hm⟩).id, name := (r.memes.get ⟨i, hm⟩).name } := by
  have heq : fetchImgflipTemplates r =
      .ok ((r.memes.take 100).map
        (fun m => ({ id := m.id, name := m.name } : ImgflipTemplate))) := by
    unfold fetchImgflipTemplates
    rw [hok, hs]
    simp
  refine ⟨heq, ?_⟩
  intro ts hts
  rw [heq] at hts
  have hts' : ts = (r.memes.take 100).map
      (fun m => ({ id := m.id, name := m.name } : ImgflipTemplate)) := by
    injection hts with h
    exact h.symm
  subst hts'
  refine ⟨by simp, by simp, ?_⟩
  intro i hi hm
  simp only [List.get_eq_getElem, List.getElem_map, List.getElem_take]

/-- A successful catalog response with three templates. -/
def threeMemesResp : GetMemesResponse :=
  { ok := true, status := 200, statusText := "OK", success := true,
    memes := [⟨1, "one", "u1", 10, 10, 2⟩, ⟨2, "two", "u2", 10, 10, 2⟩,
              ⟨3, "three", "u3", 10, 10, 2⟩] }

/-- C8 witnessed at a concrete three-template catalog. -/
theorem fetchImgflipTemplates_bounded_ordered_witness :
    fetchImgflipTemplates threeMemesResp =
      .ok [⟨1, "one"⟩, ⟨2, "two"⟩, ⟨3, "three"⟩] :=
  (fetchImgflipTemplates_bounded_ordered threeMemesResp rfl rfl).1

/-! ## C6 — topic filter inclusion/omission -/

/-- C6: a topic that is empty or consists only of JS whitespace (the
ECMA-262 class `trim()` strips) never contributes a `q` parameter; a topic
with any non-whitespace character contributes `q` bound to the topic
verbatim (the untrimmed original string). -/
theorem newsRequest_topic_filter (topic apiKey : String) :
    ((∀ c ∈ topic.data, jsWhitespace c) →
      ∀ v, ("q", v) ∉ newsRequestParams topic apiKey)
  ∧ (¬(∀ c ∈ topic.data, jsWhitespace c) →
      ("q", topic) ∈ newsRequestParams topic apiKey) := by
  constructor
  · intro hws v
    have htrim : jsTrim topic = "" := (jsTrim_eq_empty_iff topic).mpr hws
    unfold newsRequestParams
    simp [htrim]
  · intro hws
    have htrim : jsTrim topic ≠ "" := fun h => hws ((jsTrim_eq_empty_iff topic).mp h)
    unfold newsRequestParams
    simp [htrim]

/-- C6 witnessed: the all-whitespace topics `"  "` and NBSP-plus-VT
(whitespace JS strips beyond ASCII) omit `q`; the topic `"cricket"`
includes it verbatim. -/
theorem newsRequest_topic_filter_witness :
    (("q", "x") ∉ newsRequestParams "  " "key")
  ∧ (("q", "\u00A0\x0b") ∉ newsRequestParams "\u00A0\x0b" "key")
  ∧ ("q", "cricket") ∈ newsRequestParams "cricket" "key" :=
  ⟨(newsRequest_topic_filter "  " "key").1 (by decide) "x",
   (newsRequest_topic_filter "\u00A0\x0b" "key").1 (by decide) "\u00A0\x0b",
   (newsRequest_topic_filter "cricket" "key").2 (by decide)⟩

/-! ## C9 — Config Validator names every missing key -/

/-- C9: `validateEnvVars` succeeds exactly when every one of the four
required keys is present and non-empty; otherwise it fails with a message
in which every missing key occurs. -/
theorem validateEnvVars_exact (env : String → Option String) :
    (validateEnvVars env = .ok () ↔ ∀ k ∈ requiredEnvKeys, envFalsy (env k) = false)
  ∧ (∀ k ∈ requiredEnvKeys, envFalsy (env k) = true →
      ∃ msg, validateEnvVars env = .error msg ∧ containsStr k msg) := by
  constructor
  · unfold validateEnvVars
    constructor
    · intro h k hk
      by_contra hcon
      have hmem : k ∈ requiredEnvKeys.filter (fun key => envFalsy (env key)) :=
        List.mem_filter.mpr ⟨hk, by simpa using hcon⟩
      have hlen : 0 < (requiredEnvKeys.filter (fun key => envFalsy (env key))).length :=
        List.length_pos.mpr (List.ne_nil_of_mem hmem)
      simp only [if_pos hlen] at h
      cases h
    · intro h
      have hnil : requiredEnvKeys.filter (fun key => envFalsy (env key)) = [] := by
        rw [List.filter_eq_nil_iff]
        intro a ha
        simp [h a ha]
      simp [hnil]
  · intro k hk hfalsy
    have hmem : k ∈ requiredEnvKeys.filter (fun key => envFalsy (env key)) :=
      List.mem_filter.mpr ⟨hk, by simp [hfalsy]⟩
    have hlen : 0 < (requiredEnvKeys.filter (fun key => envFalsy (env key))).length :=
      List.length_pos.mpr (List.ne_nil_of_mem hmem)
    obtain ⟨p, q, hpq⟩ :=
      joinWith_substring ", " k (requiredEnvKeys.filter (fun key => envFalsy (env key))) hmem
    refine ⟨"Missing required environment variables: " ++
      joinWith ", " (requiredEnvKeys.filter (fun key => envFalsy (env key))), ?_, ?_⟩
    · unfold validateEnvVars
      simp [hlen]
    · exact ⟨"Missing required environment variables: " ++ p, q,
        by rw [hpq]; simp [String.append_assoc]⟩

/-- An environment with only the two Imgflip credentials set. -/
def envTwoMissing : String → Option String :=
  fun k => if k = "IMGFLIP_USERNAME" || k = "IMGFLIP_PASSWORD" then some "x" else none

/-- C9 witnessed: with the news and Gemini keys unset, validation fails with
a message containing each of them; with everything set it succeeds. -/
theorem validateEnvVars_exact_witness :
    (∃ msg, validateEnvVars envTwoMissing = .error msg ∧ containsStr "GEMINI_API_KEY" msg)
  ∧ validateEnvVars (fun _ => some "x") = .ok () :=
  ⟨(validateEnvVars_exact envTwoMissing).2 "GEMINI_API_KEY" (by decide) (by decide),
   (validateEnvVars_exact (fun _ => some "x")).1.mpr (by decide)⟩

/-! ## C10 — falsy-but-present required parameters are rejected -/

/-- C10: `create_meme` with `templateId` 0 or an empty `topText`/`bottomText`
string, and `generate_meme_caption` with an empty `title`/`description`
string, fail with the "Missing required parameters" error even though the
argument is present — the guard treats every falsy value as absent. -/
theorem required_param_falsy_rejection (env : String → Option String)
    (hv : validateEnvVars env = .ok ()) :
    (∀ top bot render, handleCreateMeme env (.num 0) top bot render =
      .error "Missing required parameters: templateId, topText, bottomText")
  ∧ (∀ tid bot render, handleCreateMeme env tid (.str "") bot render =
      .error "Missing required parameters: templateId, topText, bottomText")
  ∧ (∀ tid top render, handleCreateMeme env tid top (.str "") render =
      .error "Missing required parameters: templateId, topText, bottomText")
  ∧ (∀ desc tmpl cap, handleGenerateCaption env (.str "") desc tmpl cap =
      .error "Missing required parameters: title, description, availableTemplates")
  ∧ (∀ title tmpl cap, handleGenerateCaption env title (.str "") tmpl cap =
      .error "Missing required parameters: title, description, availableTemplates") := by
  refine ⟨?_, ?_, ?_, ?_, ?_⟩ <;>
    intro a b c <;>
    simp [handleCreateMeme, handleGenerateCaption, hv, truthy]

/-- An environment providing every required credential. -/
def envAllSet : String → Option String := fun _ => some "x"

/-- C10 witnessed: a concrete `create_meme` call with `templateId = 0` and
non-empty texts is rejected. -/
theorem required_param_falsy_rejection_witness :
    handleCreateMeme envAllSet (.num 0) (.str "TOP") (.str "BOTTOM") (.ok (some "url")) =
      .error "Missing required parameters: templateId, topText, bottomText" :=
  (required_param_falsy_rejection envAllSet rfl).1 (.str "TOP") (.str "BOTTOM") (.ok (some "url"))

/-! ## C2 — the Caption Parser is total and collapses every failure to `none` -/

/-- C2: `parseMemeCaption` always returns either a caption or `none` (the
model has no thrown-error outcome); a raw text whose cleaned form fails
JSON parsing yields `none`; a parsed value on which the property reads
throw (`null`) yields `none`; all-present fields with any falsy one yield
`none`; a truthy `image` coercing to NaN yields `none`. -/
theorem parseMemeCaption_total_spec (s : String) :
    (parseMemeCaption s = none ∨ ∃ c, parseMemeCaption s = some c)
  ∧ (jsonParse (cleanCaption s) = none → parseMemeCaption s = none)
  ∧ (∀ j, jsonParse (cleanCaption s) = some j →
      (getProp j "image" = .error () → parseMemeCaption s = none)
      ∧ (∀ img top bot,
          getProp j "image" = .ok img → getProp j "topText" = .ok top →
          getProp j "bottomText" = .ok bot →
          ((truthy img = false ∨ truthy top = false ∨ truthy bot = false) →
            parseMemeCaption s = none)
          ∧ (toNumber img = none → parseMemeCaption s = none))) := by
  refine ⟨?_, ?_, ?_⟩
  · cases h : parseMemeCaption s with
    | none => exact Or.inl rfl
    | some c => exact Or.inr ⟨c, rfl⟩
  · intro h
    unfold parseMemeCaption
    rw [h]
  · intro j hj
    constructor
    · intro herr
      unfold parseMemeCaption
      rw [hj]
      simp [herr]
    · intro img top bot himg htop hbot
      constructor
      · intro hfalsy
        unfold parseMemeCaption
        rw [hj]
        rcases hfalsy with h | h | h <;> simp [himg, htop, hbot, h]
      · intro hnan
        unfold parseMemeCaption
        rw [hj]
        by_cases ht : !truthy img || !truthy top || !truthy bot
        · simp [himg, htop, hbot, ht]
        · simp [himg, htop, hbot, ht, hnan]

/-- C2 witnessed: non-JSON garbage yields `none` (via the parse-failure
clause), and a parsed object with `image` missing yields `none` (via the
falsy-field clause, at the `undefined` read). -/
theorem parseMemeCaption_total_spec_witness :
    parseMemeCaption "here is your meme, enjoy!" = none
  ∧ parseMemeCaption "\x7b\"topText\": \"A\", \"bottomText\": \"B\"\x7d" = none :=
  ⟨(parseMemeCaption_total_spec "here is your meme, enjoy!").2.1 rfl,
   (((parseMemeCaption_total_spec "\x7b\"topText\": \"A\", \"bottomText\": \"B\"\x7d").2.2
      (.obj [("topText", .str "A"), ("bottomText", .str "B")]) rfl).2
      .undefined (.str "A") (.str "B") rfl rfl rfl).1 (Or.inl rfl)⟩

/-! ## C3 — out-of-range article index -/

/-- C3: with credentials valid and a non-empty fetched article list, any
article index outside the list's bounds (negative or too large) makes the
workflow fail with a message containing
"Selected article missing title or description" — the out-of-range access
itself yields `undefined`, never an indexing fault. -/
theorem newsMeme_out_of_range_error (env : String → Option String) (w : WorkflowEnv)
    (news : List JsValue) (i : Int)
    (hv : validateEnvVars env = .ok ())
    (hn : w.newsResult = .ok news)
    (hne : news.length ≠ 0)
    (hout : i < 0 ∨ (news.length : Int) ≤ i) :
    ∃ msg, handleGenerateNewsMeme env w (some i) = .error msg ∧
      containsStr "Selected article missing title or description" msg := by
  have hget : listGet? news i = none := by
    unfold listGet?
    rcases hout with h | h
    · simp [h]
    · rw [if_neg (by omega)]
      rw [List.get?_eq_none]
      omega
  refine ⟨wrapNewsMeme "Selected article missing title or description", ?_,
    "Failed to generate news meme: ", "", ?_⟩
  · simp [handleGenerateNewsMeme, hv, hn, hne, hget]
  · simp [wrapNewsMeme]

/-- A one-article news result. -/
def oneArticle : List JsValue :=
  [.obj [("title", .str "T"), ("description", .str "D")]]

/-- A workflow environment whose news fetch yields one article. -/
def wOneArticle : WorkflowEnv :=
  { newsResult := .ok oneArticle, templatesResult := .ok [],
    captionResult := .ok none, renderResult := .ok none }

/-- C3 witnessed: index 5 against a one-article list. -/
theorem newsMeme_out_of_range_error_witness :
    ∃ msg, handleGenerateNewsMeme envAllSet wOneArticle (some 5) = .error msg ∧
      containsStr "Selected article missing title or description" msg :=
  newsMeme_out_of_range_error envAllSet wOneArticle oneArticle 5 rfl rfl
    (by decide) (Or.inr (by decide))

/-! ## C4 — inner failures are wrapped; no partial result -/

/-- C4: every inner-step failure of the workflow is re-raised as the same
message behind the `Failed to generate news meme: ` prefix (so the inner
message is preserved verbatim as a substring): a news-fetch error, the
empty-list failure ("No news articles found"), a template-fetch error, a
caption-generation error, the no-caption failure
("Failed to generate meme caption"), and a render error; and a success is
only returned when every step succeeded (no partial result). -/
theorem newsMeme_failure_wrapping (env : String → Option String) (w : WorkflowEnv)
    (hv : validateEnvVars env = .ok ()) :
    (∀ e ai, w.newsResult = .error e →
      handleGenerateNewsMeme env w ai = .error (wrapNewsMeme e))
  ∧ (∀ ai, w.newsResult = .ok [] →
      handleGenerateNewsMeme env w ai = .error (wrapNewsMeme "No news articles found"))
  ∧ (∀ news i article titleV descV,
      w.newsResult = .ok news →
      listGet? news i = some article → truthy article = true →
      getProp article "title" = .ok titleV → truthy titleV = true →
      getProp article "description" = .ok descV → truthy descV = true →
        (∀ e, w.templatesResult = .error e →
          handleGenerateNewsMeme env w (some i) = .error (wrapNewsMeme e))
      ∧ (∀ ts, w.templatesResult = .ok ts →
            (∀ e, w.captionResult = .error e →
              handleGenerateNewsMeme env w (some i) = .error (wrapNewsMeme e))
          ∧ (w.captionResult = .ok none →
              handleGenerateNewsMeme env w (some i) =
                .error (wrapNewsMeme "Failed to generate meme caption"))
          ∧ (∀ c, w.captionResult = .ok (some c) →
              ∀ e, w.renderResult = .error e →
                handleGenerateNewsMeme env w (some i) = .error (wrapNewsMeme e))))
  ∧ (∀ ai r, handleGenerateNewsMeme env w ai = .ok r →
      (∃ news, w.newsResult = .ok news)
      ∧ (∃ ts, w.templatesResult = .ok ts)
      ∧ w.captionResult = .ok (some r.caption)
      ∧ w.renderResult = .ok r.memeUrl) := by
  refine ⟨?_, ?_, ?_, ?_⟩
  · intro e ai hn
    simp [handleGenerateNewsMeme, hv, hn]
  · intro ai hn
    simp [handleGenerateNewsMeme, hv, hn]
  · intro news i article titleV descV hn hget hart ht htt hd hdt
    have hne : news.length ≠ 0 := by
      intro h0
      rw [List.length_eq_zero.mp h0] at hget
      unfold listGet? at hget
      by_cases hi : i < 0
      · simp [hi] at hget
      · simp [hi] at hget
    refine ⟨?_, ?_⟩
    · intro e he
      simp [handleGenerateNewsMeme, hv, hn, hne, hget, hart, ht, htt, hd, hdt, he]
    · intro ts hts
      refine ⟨?_, ?_, ?_⟩
      · intro e he
        simp [handleGenerateNewsMeme, hv, hn, hne, hget, hart, ht, htt, hd, hdt, hts, he]
      · intro hc
        simp [handleGenerateNewsMeme, hv, hn, hne, hget, hart, ht, htt, hd, hdt, hts, hc]
      · intro c hc e he
        simp [handleGenerateNewsMeme, hv, hn, hne, hget, hart, ht, htt, hd, hdt, hts, hc, he]
  · intro ai r h
    unfold handleGenerateNewsMeme at h
    rw [hv] at h
    dsimp only at h
    repeat' split at h
    all_goals try exact (Except.noConfusion h)
    injection h with h2
    subst h2
    exact ⟨⟨_, by assumption⟩, ⟨_, by assumption⟩, by assumption, by assumption⟩

/-- C4 witnessed: with one good article and an empty caption result, the
workflow fails with the wrapped "Failed to generate meme caption". -/
theorem newsMeme_failure_wrapping_witness :
    handleGenerateNewsMeme envAllSet wOneArticle (some 0) =
      .error (wrapNewsMeme "Failed to generate meme caption") :=
  (((newsMeme_failure_wrapping envAllSet wOneArticle rfl).2.2.1
      oneArticle 0 (.obj [("title", .str "T"), ("description", .str "D")])
      (.str "T") (.str "D") rfl rfl rfl rfl rfl rfl rfl).2 [] rfl).2.1 rfl
